import Mathlib

/-!
Verification development for the pig-souls character controller.

The definitions below are a shallow embedding of the character controller
sources (`src/character_controller/states.rs`, `src/character_controller/physics.rs`,
`src/character_controller/input.rs`, `src/camera.rs`, `src/player.rs`).
`f32`/`f64` scalars are modelled as exact rationals; the camera quaternion is
represented by the cosine/sine pair of its extracted yaw, and the irrational
helpers of the engine (`normalize`, `slerp`, `atan2`-built rotations) are
passed in as function parameters, so every theorem quantifies over them.
-/

namespace PigSouls

/-- A 2D vector (`avian3d::math::Vector2`). -/
structure V2 where
  x : ℚ
  y : ℚ
  deriving DecidableEq

/-- A 3D vector (`bevy::math::Vec3` / `avian3d::math::Vector`). -/
structure V3 where
  x : ℚ
  y : ℚ
  z : ℚ
  deriving DecidableEq

def V2.length_squared (v : V2) : ℚ := v.x * v.x + v.y * v.y

def V3.length_squared (v : V3) : ℚ := v.x * v.x + v.y * v.y + v.z * v.z

def V3.sub (a b : V3) : V3 := ⟨a.x - b.x, a.y - b.y, a.z - b.z⟩

def V3.dot (a b : V3) : ℚ := a.x * b.x + a.y * b.y + a.z * b.z

/-- `Vector::Y`, the world up vector. -/
def vecY : V3 := ⟨0, 1, 0⟩

/-- `Quat::from_rotation_y(yaw)` applied to a vector, with the yaw angle
represented by its cosine `c` and sine `s`. -/
def rotY (c s : ℚ) (v : V3) : V3 :=
  ⟨c * v.x + s * v.z, v.y, -s * v.x + c * v.z⟩

/-- Rust `f32::clamp(lo, hi)`. -/
def clampQ (x lo hi : ℚ) : ℚ := min (max x lo) hi

/-- The `MovementAction` event enum (`src/character_controller.rs`). -/
inductive MovementAction where
  | Move (direction : V2) (sprinting : Bool)
  | Jump
  | Roll (direction : V2)
  | StartBlock
  | EndBlock
  deriving DecidableEq

/-- The `Player` component (`src/player.rs`). -/
structure Player where
  is_moving : Bool
  is_attacking : Bool
  movement_direction : V3
  walk_speed : ℚ
  run_speed : ℚ
  current_speed : ℚ
  is_sprinting : Bool
  is_rolling : Bool
  roll_speed : ℚ
  roll_duration : ℚ
  roll_cooldown : ℚ
  roll_timer : ℚ
  roll_cooldown_timer : ℚ
  roll_direction : V3
  roll_distance : ℚ
  can_roll : Bool
  jump_height : ℚ
  fall_multiplier : ℚ
  low_jump_multiplier : ℚ
  coyote_time : ℚ
  coyote_timer : ℚ
  is_blocking : Bool
  block_effectiveness : ℚ
  can_move_while_blocking : Bool
  block_movement_penalty : ℚ
  health : ℚ
  max_health : ℚ
  stamina : ℚ
  max_stamina : ℚ
  stamina_regen_rate : ℚ
  stamina_use_rate : ℚ
  exhausted : Bool
  exhaustion_timer : ℚ
  roll_stamina_cost : ℚ
  block_stamina_cost_per_sec : ℚ
  deriving DecidableEq

/-- `Player::default()` (`src/player.rs`). -/
def Player.default : Player where
  is_moving := false
  is_attacking := false
  movement_direction := ⟨0, 0, 0⟩
  walk_speed := 200
  run_speed := 350
  current_speed := 200
  is_sprinting := false
  is_rolling := false
  roll_speed := 500
  roll_duration := 2/5
  roll_cooldown := 1/2
  roll_timer := 0
  roll_cooldown_timer := 0
  roll_direction := ⟨0, 0, 0⟩
  roll_distance := 4
  can_roll := true
  jump_height := 7
  fall_multiplier := 5/2
  low_jump_multiplier := 2
  coyote_time := 1/10
  coyote_timer := 0
  is_blocking := false
  block_effectiveness := 7/10
  can_move_while_blocking := true
  block_movement_penalty := 1/2
  health := 100
  max_health := 100
  stamina := 100
  max_stamina := 100
  stamina_regen_rate := 30
  stamina_use_rate := 15
  exhausted := false
  exhaustion_timer := 0
  roll_stamina_cost := 20
  block_stamina_cost_per_sec := 5

/-- The per-frame intent flags accumulated by the event-scanning loop at the
top of `update_player_states` (`src/character_controller/states.rs`). -/
structure FrameIntents where
  is_moving : Bool
  sprint_requested : Bool
  roll_requested : Bool
  roll_direction : V2
  block_start_requested : Bool
  block_end_requested : Bool
  deriving DecidableEq

/-- The event-scanning loop of `update_player_states`: one pass over this
tick's `MovementAction` events. -/
def read_events (events : List MovementAction) : FrameIntents :=
  events.foldl
    (fun acc e =>
      match e with
      | .Move direction sprinting =>
          if direction.length_squared > 0 then
            { acc with
                is_moving := true
                sprint_requested := acc.sprint_requested || sprinting }
          else acc
      | .Roll direction =>
          { acc with roll_requested := true, roll_direction := direction }
      | .StartBlock => { acc with block_start_requested := true }
      | .EndBlock => { acc with block_end_requested := true }
      | .Jump => acc)
    ⟨false, false, false, ⟨0, 0⟩, false, false⟩

/-- `states.rs` lines 55-73: roll duration countdown and roll-cooldown
countdown. -/
def roll_timer_phase (p : Player) (delta : ℚ) : Player :=
  if p.is_rolling then
    let roll_timer := p.roll_timer - delta
    if roll_timer ≤ 0 then
      { p with
          is_rolling := false
          roll_timer := 0
          roll_cooldown_timer := p.roll_cooldown
          can_roll := false }
    else { p with roll_timer := roll_timer }
  else if ¬p.can_roll then
    let t := p.roll_cooldown_timer - delta
    if t ≤ 0 then { p with can_roll := true, roll_cooldown_timer := 0 }
    else { p with roll_cooldown_timer := t }
  else p

/-- `states.rs` lines 75-94: start a new roll when requested and permitted.
The camera's yaw rotation is given by its cosine `camC` and sine `camS`. -/
def roll_start_phase (p : Player) (fi : FrameIntents) (camC camS : ℚ) : Player :=
  if fi.roll_requested ∧ p.can_roll ∧ ¬p.is_rolling ∧ ¬p.exhausted ∧
      p.roll_stamina_cost ≤ p.stamina then
    let local_direction : V3 := ⟨fi.roll_direction.x, 0, -fi.roll_direction.y⟩
    let stamina := p.stamina - p.roll_stamina_cost
    { p with
        is_rolling := true
        roll_timer := p.roll_duration
        roll_direction := rotY camC camS local_direction
        stamina := if stamina < 0 then 0 else stamina
        is_blocking := false }
  else p

/-- `states.rs` lines 96-103: apply block start/end requests. -/
def block_toggle_phase (p : Player) (fi : FrameIntents) : Player :=
  let p :=
    if fi.block_start_requested ∧ ¬p.is_rolling ∧ ¬p.exhausted then
      { p with is_blocking := true }
    else p
  if fi.block_end_requested ∨ p.is_rolling then { p with is_blocking := false }
  else p

/-- `states.rs` lines 105-116: stamina upkeep while blocking. -/
def block_stamina_phase (p : Player) (delta : ℚ) : Player :=
  if p.is_blocking then
    let stamina := p.stamina - p.block_stamina_cost_per_sec * delta
    if stamina ≤ 0 then
      { p with stamina := 0, exhausted := true, exhaustion_timer := 1, is_blocking := false }
    else { p with stamina := stamina }
  else p

/-- `states.rs` lines 118-152: sprint resolution, exhaustion countdown and
stamina regeneration. -/
def sprint_regen_phase (p : Player) (fi : FrameIntents) (delta : ℚ) : Player :=
  if ¬p.is_rolling ∧ ¬p.is_blocking ∧ fi.sprint_requested ∧ ¬p.exhausted ∧
      0 < p.stamina then
    let p := { p with is_sprinting := true, current_speed := p.run_speed }
    let stamina := p.stamina - p.stamina_use_rate * delta
    if stamina ≤ 0 then
      { p with stamina := 0, exhausted := true, exhaustion_timer := 1 }
    else { p with stamina := stamina }
  else if ¬p.is_rolling then
    let p := { p with is_sprinting := false }
    let p :=
      if p.is_blocking ∧ p.can_move_while_blocking then
        { p with current_speed := p.walk_speed * p.block_movement_penalty }
      else if ¬p.is_blocking then { p with current_speed := p.walk_speed }
      else p
    if p.exhausted then
      let t := p.exhaustion_timer - delta
      if t ≤ 0 then { p with exhaustion_timer := t, exhausted := false }
      else { p with exhaustion_timer := t }
    else if ¬fi.sprint_requested ∧ ¬p.is_rolling ∧ ¬p.is_blocking ∧
        p.stamina < p.max_stamina then
      { p with stamina := min (p.stamina + p.stamina_regen_rate * delta) p.max_stamina }
    else p
  else p

/-- `states.rs` lines 154-157: unconditional coyote-timer countdown. -/
def coyote_phase (p : Player) (delta : ℚ) : Player :=
  if 0 < p.coyote_timer then { p with coyote_timer := p.coyote_timer - delta }
  else p

/-- `update_player_states` (`src/character_controller/states.rs`): one tick of
the player state machine, given the camera's yaw (cosine `camC`, sine `camS`),
the frame time `delta` and this tick's events. -/
def update_player_states (p : Player) (camC camS delta : ℚ)
    (events : List MovementAction) : Player :=
  let fi := read_events events
  let p := { p with is_moving := fi.is_moving }
  let p := roll_timer_phase p delta
  let p := roll_start_phase p fi camC camS
  let p := block_toggle_phase p fi
  let p := block_stamina_phase p delta
  let p := sprint_regen_phase p fi delta
  coyote_phase p delta

/-- The controller components read by `movement`
(`src/character_controller/physics.rs`): the `JumpImpulse` value, the
`LinearVelocity`, the optional `GroundNormal` and the presence of the
`Grounded` marker. -/
structure Ctrl where
  jump_impulse : ℚ
  velocity : V3
  ground_normal : Option V3
  grounded : Bool
  deriving DecidableEq

/-- The outcome of running an engine system: either the updated state or an
aborted run (Rust `panic`, here raised by `.expect`). -/
inductive SysResult (α : Type) where
  | ok (value : α)
  | err (msg : String)
  deriving DecidableEq

/-- One iteration of the event loop of `movement`
(`src/character_controller/physics.rs` lines 93-173), for the single player
controller. `nrm` stands for `Vec3::normalize`, `rotA x z` for
`Quat::from_rotation_y(f32::atan2(x, z))` and `slerpF` for `Quat::slerp`;
the player transform rotation is threaded through as an abstract value of
type `R`. -/
def move_event_step {R : Type} (nrm : V3 → V3) (rotA : ℚ → ℚ → R)
    (slerpF : R → R → ℚ → R) (camC camS delta : ℚ)
    (st : Player × R × Ctrl) (e : MovementAction) : Player × R × Ctrl :=
  let (p, rot, ctrl) := st
  match e with
  | .Move movement _ =>
      if movement.length_squared > 0 then
        let movement_local : V3 := ⟨movement.x, 0, -movement.y⟩
        let movement_world := rotY camC camS movement_local
        let p := { p with movement_direction := nrm movement_world }
        let v := ctrl.velocity
        let v :=
          match ctrl.grounded, ctrl.ground_normal with
          | true, some normal =>
              if (normal.sub vecY).length_squared > 1/1000 then
                let slope_dot :=
                  (nrm movement_world).dot (nrm ⟨normal.x, 0, normal.z⟩)
                let slope_factor :=
                  if slope_dot < 0 then 1 - |slope_dot| * (2/5)
                  else 1 + slope_dot * (3/10)
                ⟨movement_world.x * p.current_speed * delta * slope_factor,
                  v.y,
                  movement_world.z * p.current_speed * delta * slope_factor⟩
              else
                ⟨movement_world.x * p.current_speed * delta, v.y,
                  movement_world.z * p.current_speed * delta⟩
          | _, _ =>
              ⟨movement_world.x * p.current_speed * delta, v.y,
                movement_world.z * p.current_speed * delta⟩
        let rot := slerpF rot (rotA movement_world.x movement_world.z) (10 * delta)
        (p, rot, { ctrl with velocity := v })
      else (p, rot, ctrl)
  | .Jump =>
      if ctrl.grounded ∨ 0 < p.coyote_timer then
        let v := { ctrl.velocity with y := ctrl.jump_impulse }
        let v :=
          match ctrl.grounded, ctrl.ground_normal with
          | true, some normal =>
              { v with
                  x := v.x + normal.x * ctrl.jump_impulse * (3/10)
                  z := v.z + normal.z * ctrl.jump_impulse * (3/10) }
          | _, _ => v
        ({ p with coyote_timer := 0 }, rot, { ctrl with velocity := v })
      else (p, rot, ctrl)
  | _ => (p, rot, ctrl)

/-- `movement` (`src/character_controller/physics.rs` lines 37-186): one tick
of the physics movement system. A missing camera makes the system return
without touching anything; a missing player hits
`player_query.single_mut().expect("No player found")`. The camera transform is
represented by the cosine/sine of its extracted yaw. -/
def movement {R : Type} (nrm : V3 → V3) (rotA : ℚ → ℚ → R)
    (slerpF : R → R → ℚ → R) (delta : ℚ) (events : List MovementAction)
    (camera : Option (ℚ × ℚ)) (player_rot : Option (Player × R)) (ctrl : Ctrl) :
    SysResult (Option (Player × R) × Ctrl) :=
  match camera with
  | none => .ok (player_rot, ctrl)
  | some (camC, camS) =>
    match player_rot with
    | none => .err "No player found"
    | some (p, rot) =>
      if p.is_rolling then
        let v := ctrl.velocity
        .ok (some (p, rot),
          { ctrl with
              velocity :=
                ⟨p.roll_direction.x * p.roll_speed * delta, v.y,
                  p.roll_direction.z * p.roll_speed * delta⟩ })
      else if p.is_blocking ∧ ¬p.can_move_while_blocking then
        .ok (some (p, rot), { ctrl with velocity := ⟨0, ctrl.velocity.y, 0⟩ })
      else
        let st := events.foldl (move_event_step nrm rotA slerpF camC camS delta)
          (p, rot, ctrl)
        let (p, rot, ctrl) := st
        let is_player_grounded := ctrl.grounded
        let p :=
          if ¬is_player_grounded ∧ p.coyote_timer ≤ 0 then
            { p with coyote_timer := p.coyote_time }
          else if ¬is_player_grounded then
            { p with coyote_timer := max (p.coyote_timer - delta) 0 }
          else p
        .ok (some (p, rot), ctrl)

/-- `apply_movement_damping` (`src/character_controller/physics.rs` lines
344-367): multiply the XZ velocity by the damping factor when no nonzero
`Move` event arrived this tick. -/
def apply_movement_damping (events : List MovementAction)
    (damping_factor : ℚ) (v : V3) : V3 :=
  let moving := events.any fun e =>
    match e with
    | .Move dir _ => decide (dir.length_squared > 0)
    | _ => false
  if moving then v
  else ⟨v.x * damping_factor, v.y, v.z * damping_factor⟩

/-- The `ThirdPersonCamera` component (`src/camera.rs`). -/
structure ThirdPersonCamera where
  pitch : ℚ
  yaw : ℚ
  distance : ℚ
  height_offset : ℚ
  rotation_speed : ℚ
  zoom_speed : ℚ
  smoothness : ℚ
  invert_x : Bool
  invert_y : Bool
  deriving DecidableEq

/-- `ThirdPersonCamera::default()` (`src/camera.rs` lines 30-44). -/
def ThirdPersonCamera.default : ThirdPersonCamera where
  pitch := 2/5
  yaw := 0
  distance := 5
  height_offset := 3/2
  rotation_speed := 1/250
  zoom_speed := 1/2
  smoothness := 5
  invert_x := false
  invert_y := false

/-- One mouse-motion event of `third_person_camera` (`src/camera.rs` lines
135-146): yaw/pitch update followed by the pitch clamp to `[0.5, 1.4]`. -/
def mouse_look_step (cam : ThirdPersonCamera) (delta : V2) : ThirdPersonCamera :=
  let dx := if cam.invert_x then -delta.x else delta.x
  let dy := if cam.invert_y then -delta.y else delta.y
  { cam with
      yaw := cam.yaw - dx * cam.rotation_speed
      pitch := clampQ (cam.pitch + dy * cam.rotation_speed) (1/2) (7/5) }

/-- One mouse-wheel event of `third_person_camera` (`src/camera.rs` lines
149-153). -/
def mouse_wheel_step (cam : ThirdPersonCamera) (y : ℚ) : ThirdPersonCamera :=
  { cam with distance := clampQ (cam.distance - y * cam.zoom_speed) 2 15 }

/-- One connected gamepad in `third_person_camera` (`src/camera.rs` lines
158-187): right-stick look with a 0.1 deadzone, pitch clamp, then the
per-gamepad distance clamp. -/
def gamepad_look_step (delta : ℚ) (cam : ThirdPersonCamera) (stick : V2) :
    ThirdPersonCamera :=
  let cam :=
    if 1/10 < |stick.x| ∨ 1/10 < |stick.y| then
      let gamepad_sensitivity : ℚ := 1/20
      let inverted_stick_y := -stick.y
      let dx := if cam.invert_x then -stick.x else stick.x
      let dy := if cam.invert_y then -inverted_stick_y else inverted_stick_y
      { cam with
          yaw := cam.yaw - dx * gamepad_sensitivity * delta * 60
          pitch := clampQ (cam.pitch + dy * gamepad_sensitivity * delta * 60)
            (1/2) (7/5) }
    else cam
  { cam with distance := clampQ cam.distance 1 5 }

/-- The look-input portion of `third_person_camera` (`src/camera.rs` lines
129-187): mouse motion and wheel (only while the window is focused), then
gamepad right sticks. The later orbital-position smoothing does not touch
`pitch`, `yaw` or `distance`. -/
def third_person_camera_look (cam : ThirdPersonCamera) (focused : Bool)
    (mouse : List V2) (wheel : List ℚ) (delta : ℚ) (sticks : List V2) :
    ThirdPersonCamera :=
  let cam :=
    if focused then
      let cam := mouse.foldl mouse_look_step cam
      wheel.foldl mouse_wheel_step cam
    else cam
  sticks.foldl (gamepad_look_step delta) cam

/-- The roll-direction choice of `keyboard_input`
(`src/character_controller/input.rs` lines 41-50): the current movement
direction, or forward `(0, 1)` when there is none. -/
def keyboard_roll_direction (direction : V2) : V2 :=
  if direction ≠ ⟨0, 0⟩ then direction else ⟨0, 1⟩

/-! ### Projection lemmas for the state-machine phases -/

@[simp] lemma roll_timer_phase_stamina (p : Player) (d : ℚ) :
    (roll_timer_phase p d).stamina = p.stamina := by
  simp only [roll_timer_phase]; split_ifs <;> rfl

@[simp] lemma roll_timer_phase_max_stamina (p : Player) (d : ℚ) :
    (roll_timer_phase p d).max_stamina = p.max_stamina := by
  simp only [roll_timer_phase]; split_ifs <;> rfl

@[simp] lemma roll_timer_phase_config (p : Player) (d : ℚ) :
    (roll_timer_phase p d).roll_stamina_cost = p.roll_stamina_cost
      ∧ (roll_timer_phase p d).block_stamina_cost_per_sec = p.block_stamina_cost_per_sec
      ∧ (roll_timer_phase p d).stamina_use_rate = p.stamina_use_rate
      ∧ (roll_timer_phase p d).stamina_regen_rate = p.stamina_regen_rate := by
  simp only [roll_timer_phase]; split_ifs <;> exact ⟨rfl, rfl, rfl, rfl⟩

@[simp] lemma roll_start_phase_max_stamina (p : Player) (fi : FrameIntents) (c s : ℚ) :
    (roll_start_phase p fi c s).max_stamina = p.max_stamina := by
  simp only [roll_start_phase]; split_ifs <;> rfl

@[simp] lemma roll_start_phase_config (p : Player) (fi : FrameIntents) (c s : ℚ) :
    (roll_start_phase p fi c s).roll_stamina_cost = p.roll_stamina_cost
      ∧ (roll_start_phase p fi c s).block_stamina_cost_per_sec = p.block_stamina_cost_per_sec
      ∧ (roll_start_phase p fi c s).stamina_use_rate = p.stamina_use_rate
      ∧ (roll_start_phase p fi c s).stamina_regen_rate = p.stamina_regen_rate := by
  simp only [roll_start_phase]; split_ifs <;> exact ⟨rfl, rfl, rfl, rfl⟩

@[simp] lemma block_toggle_phase_stamina (p : Player) (fi : FrameIntents) :
    (block_toggle_phase p fi).stamina = p.stamina := by
  simp only [block_toggle_phase]; split_ifs <;> rfl

@[simp] lemma block_toggle_phase_max_stamina (p : Player) (fi : FrameIntents) :
    (block_toggle_phase p fi).max_stamina = p.max_stamina := by
  simp only [block_toggle_phase]; split_ifs <;> rfl

@[simp] lemma block_toggle_phase_config (p : Player) (fi : FrameIntents) :
    (block_toggle_phase p fi).roll_stamina_cost = p.roll_stamina_cost
      ∧ (block_toggle_phase p fi).block_stamina_cost_per_sec = p.block_stamina_cost_per_sec
      ∧ (block_toggle_phase p fi).stamina_use_rate = p.stamina_use_rate
      ∧ (block_toggle_phase p fi).stamina_regen_rate = p.stamina_regen_rate := by
  simp only [block_toggle_phase]; split_ifs <;> exact ⟨rfl, rfl, rfl, rfl⟩

@[simp] lemma block_toggle_phase_is_rolling (p : Player) (fi : FrameIntents) :
    (block_toggle_phase p fi).is_rolling = p.is_rolling := by
  simp only [block_toggle_phase]; split_ifs <;> rfl

@[simp] lemma block_toggle_phase_exhausted (p : Player) (fi : FrameIntents) :
    (block_toggle_phase p fi).exhausted = p.exhausted := by
  simp only [block_toggle_phase]; split_ifs <;> rfl

@[simp] lemma block_stamina_phase_max_stamina (p : Player) (d : ℚ) :
    (block_stamina_phase p d).max_stamina = p.max_stamina := by
  simp only [block_stamina_phase]; split_ifs <;> rfl

@[simp] lemma block_stamina_phase_config (p : Player) (d : ℚ) :
    (block_stamina_phase p d).roll_stamina_cost = p.roll_stamina_cost
      ∧ (block_stamina_phase p d).block_stamina_cost_per_sec = p.block_stamina_cost_per_sec
      ∧ (block_stamina_phase p d).stamina_use_rate = p.stamina_use_rate
      ∧ (block_stamina_phase p d).stamina_regen_rate = p.stamina_regen_rate := by
  simp only [block_stamina_phase]; split_ifs <;> exact ⟨rfl, rfl, rfl, rfl⟩

@[simp] lemma block_stamina_phase_is_rolling (p : Player) (d : ℚ) :
    (block_stamina_phase p d).is_rolling = p.is_rolling := by
  simp only [block_stamina_phase]; split_ifs <;> rfl

lemma block_stamina_phase_is_blocking (p : Player) (d : ℚ) :
    (block_stamina_phase p d).is_blocking = true → p.is_blocking = true := by
  simp only [block_stamina_phase]; split_ifs <;> simp_all

@[simp] lemma sprint_regen_phase_max_stamina (p : Player) (fi : FrameIntents) (d : ℚ) :
    (sprint_regen_phase p fi d).max_stamina = p.max_stamina := by
  simp only [sprint_regen_phase]; split_ifs <;> rfl

@[simp] lemma sprint_regen_phase_is_rolling (p : Player) (fi : FrameIntents) (d : ℚ) :
    (sprint_regen_phase p fi d).is_rolling = p.is_rolling := by
  simp only [sprint_regen_phase]; split_ifs <;> rfl

@[simp] lemma sprint_regen_phase_is_blocking (p : Player) (fi : FrameIntents) (d : ℚ) :
    (sprint_regen_phase p fi d).is_blocking = p.is_blocking := by
  simp only [sprint_regen_phase]; split_ifs <;> rfl

@[simp] lemma coyote_phase_stamina (p : Player) (d : ℚ) :
    (coyote_phase p d).stamina = p.stamina := by
  simp only [coyote_phase]; split_ifs <;> rfl

@[simp] lemma coyote_phase_max_stamina (p : Player) (d : ℚ) :
    (coyote_phase p d).max_stamina = p.max_stamina := by
  simp only [coyote_phase]; split_ifs <;> rfl

@[simp] lemma coyote_phase_is_rolling (p : Player) (d : ℚ) :
    (coyote_phase p d).is_rolling = p.is_rolling := by
  simp only [coyote_phase]; split_ifs <;> rfl

@[simp] lemma coyote_phase_is_blocking (p : Player) (d : ℚ) :
    (coyote_phase p d).is_blocking = p.is_blocking := by
  simp only [coyote_phase]; split_ifs <;> rfl

lemma block_toggle_phase_not_blocking_of_rolling (p : Player) (fi : FrameIntents) :
    (block_toggle_phase p fi).is_rolling = true →
      (block_toggle_phase p fi).is_blocking = false := by
  simp only [block_toggle_phase]; split_ifs <;> simp_all

/-! ### Claim theorems -/

/-- C7: after every tick of `update_player_states`, `is_rolling` and
`is_blocking` are never both true: the block-toggle section forces
`is_blocking` off whenever the player is rolling, and no later section of the
update sets `is_blocking` or `is_rolling`. -/
theorem update_player_states_roll_block_exclusive (p : Player) (camC camS delta : ℚ)
    (events : List MovementAction) :
    ¬((update_player_states p camC camS delta events).is_rolling = true
      ∧ (update_player_states p camC camS delta events).is_blocking = true) := by
  simp only [update_player_states, coyote_phase_is_rolling, coyote_phase_is_blocking,
    sprint_regen_phase_is_rolling, sprint_regen_phase_is_blocking,
    block_stamina_phase_is_rolling]
  rintro ⟨hr, hb⟩
  have h1 := block_stamina_phase_is_blocking _ _ hb
  have h2 := block_toggle_phase_not_blocking_of_rolling _ _ hr
  rw [h2] at h1
  exact Bool.noConfusion h1

/-- C4 (amended): when the camera singleton is missing, the `movement` system
returns before touching any state: the tick is a no-op. -/
theorem movement_missing_camera_is_noop {R : Type} (nrm : V3 → V3)
    (rotA : ℚ → ℚ → R) (slerpF : R → R → ℚ → R) (delta : ℚ)
    (events : List MovementAction) (player_rot : Option (Player × R)) (ctrl : Ctrl) :
    movement nrm rotA slerpF delta events none player_rot ctrl
      = SysResult.ok (player_rot, ctrl) := rfl

/-- C4 counterexample: with the camera present but the player singleton
missing, `movement` does not degrade to a no-op — it aborts through
`player_query.single_mut().expect("No player found")`, i.e. it panics, so the
claim "if the player singleton is missing the movement update is a no-op and
does not panic" is false. -/
theorem movement_missing_player_aborts :
    movement (R := Unit) id (fun _ _ => ()) (fun _ _ _ => ()) (1/60) []
        (some (1, 0)) none
        { jump_impulse := 7, velocity := ⟨0, 0, 0⟩, ground_normal := none,
          grounded := false }
      = SysResult.err "No player found" := rfl

/-- C2: code-bug demonstration. The spec requires that once `coyote_timer`
has reached 0 while airborne, every later Jump intent fails until the player
is grounded again. The coyote update at the end of `movement` instead re-arms
the timer (`coyote_timer = coyote_time`) on EVERY airborne tick on which the
timer is ≤ 0 — its own comment says "Just left the ground" — so with the
player airborne and the grace expired (timer = 0), one event-free tick sets
the timer back to `coyote_time = 0.1`, and a Jump on the following airborne
tick succeeds (`velocity.y` becomes `jump_impulse = 7`), after which the
timer is re-armed once more to 0.1 within the same tick. -/
theorem movement_coyote_rearms_while_airborne :
    movement (R := Unit) id (fun _ _ => ()) (fun _ _ _ => ()) (1/60) []
        (some (1, 0)) (some (Player.default, ()))
        { jump_impulse := 7, velocity := ⟨0, 0, 0⟩, ground_normal := none,
          grounded := false }
      = SysResult.ok (some ({ Player.default with coyote_timer := 1/10 }, ()),
          { jump_impulse := 7, velocity := ⟨0, 0, 0⟩, ground_normal := none,
            grounded := false })
    ∧ movement (R := Unit) id (fun _ _ => ()) (fun _ _ _ => ()) (1/60)
        [MovementAction.Jump]
        (some (1, 0)) (some ({ Player.default with coyote_timer := 1/10 }, ()))
        { jump_impulse := 7, velocity := ⟨0, 0, 0⟩, ground_normal := none,
          grounded := false }
      = SysResult.ok (some ({ Player.default with coyote_timer := 1/10 }, ()),
          { jump_impulse := 7, velocity := ⟨0, 7, 0⟩, ground_normal := none,
            grounded := false }) := by
  constructor <;> norm_num [movement, move_event_step, Player.default]

/-- C3 (amended): while `is_rolling` is true, `movement` sets the horizontal
velocity to `roll_direction × roll_speed × delta_time` (the claim as frozen
omits the `delta_time` factor), and the result is independent of the tick's
events — the same state with an arbitrary event list and with no events at
all produces the same output. -/
theorem movement_roll_overrides_input {R : Type} (nrm : V3 → V3)
    (rotA : ℚ → ℚ → R) (slerpF : R → R → ℚ → R) (delta camC camS : ℚ)
    (events : List MovementAction) (p : Player) (rot : R) (ctrl : Ctrl)
    (h : p.is_rolling = true) :
    movement nrm rotA slerpF delta events (some (camC, camS)) (some (p, rot)) ctrl
      = SysResult.ok (some (p, rot),
          { ctrl with
              velocity :=
                ⟨p.roll_direction.x * p.roll_speed * delta, ctrl.velocity.y,
                  p.roll_direction.z * p.roll_speed * delta⟩ })
    ∧ movement nrm rotA slerpF delta events (some (camC, camS)) (some (p, rot)) ctrl
      = movement nrm rotA slerpF delta [] (some (camC, camS)) (some (p, rot)) ctrl := by
  have key : ∀ evs : List MovementAction,
      movement nrm rotA slerpF delta evs (some (camC, camS)) (some (p, rot)) ctrl
        = SysResult.ok (some (p, rot),
            { ctrl with
                velocity :=
                  ⟨p.roll_direction.x * p.roll_speed * delta, ctrl.velocity.y,
                    p.roll_direction.z * p.roll_speed * delta⟩ }) := by
    intro evs
    simp [movement, h]
  exact ⟨key events, (key events).trans (key []).symm⟩

/-- Witness for C3's amended theorem at the default rolling player, roll
direction `(1,0,0)`, `roll_speed = 500` and `delta = 1/60`. -/
theorem movement_roll_overrides_input_witness :
    ({ Player.default with
        is_rolling := true
        roll_direction := ⟨1, 0, 0⟩ } : Player).is_rolling = true
    ∧ movement (R := Unit) id (fun _ _ => ()) (fun _ _ _ => ()) (1/60)
        [MovementAction.Move ⟨1, 0⟩ false]
        (some (1, 0))
        (some ({ Player.default with
          is_rolling := true
          roll_direction := ⟨1, 0, 0⟩ }, ()))
        { jump_impulse := 7, velocity := ⟨0, 0, 0⟩, ground_normal := none,
          grounded := false }
      = SysResult.ok
          (some ({ Player.default with
            is_rolling := true
            roll_direction := ⟨1, 0, 0⟩ }, ()),
          { jump_impulse := 7, velocity := ⟨25/3, 0, 0⟩, ground_normal := none,
            grounded := false }) := by
  refine ⟨rfl, ?_⟩
  have h := (movement_roll_overrides_input (R := Unit) id (fun _ _ => ())
    (fun _ _ _ => ()) (1/60) 1 0 [MovementAction.Move ⟨1, 0⟩ false]
    { Player.default with is_rolling := true, roll_direction := ⟨1, 0, 0⟩ } ()
    { jump_impulse := 7, velocity := ⟨0, 0, 0⟩, ground_normal := none,
      grounded := false } rfl).1
  rw [h]
  norm_num [Player.default]

/-- C3 counterexample: the claim as frozen states the rolling horizontal
velocity equals `roll_direction × roll_speed`; with `roll_direction = (1,0,0)`,
`roll_speed = 500` and `delta_time = 1/60` the code produces `25/3`, not
`1 × 500 = 500`. -/
theorem movement_roll_velocity_scaled_by_delta :
    movement (R := Unit) id (fun _ _ => ()) (fun _ _ _ => ()) (1/60) []
        (some (1, 0))
        (some ({ Player.default with
          is_rolling := true
          roll_direction := ⟨1, 0, 0⟩ }, ()))
        { jump_impulse := 7, velocity := ⟨0, 0, 0⟩, ground_normal := none,
          grounded := false }
      = SysResult.ok
          (some ({ Player.default with
            is_rolling := true
            roll_direction := ⟨1, 0, 0⟩ }, ()),
          { jump_impulse := 7, velocity := ⟨25/3, 0, 0⟩, ground_normal := none,
            grounded := false })
    ∧ ({ Player.default with
          is_rolling := true
          roll_direction := ⟨1, 0, 0⟩ } : Player).roll_direction.x
        * ({ Player.default with
            is_rolling := true
            roll_direction := ⟨1, 0, 0⟩ } : Player).roll_speed = 500
    ∧ (25/3 : ℚ) ≠ 500 := by
  refine ⟨?_, ?_, ?_⟩ <;> norm_num [movement, Player.default]

/-- C6 counterexample: the state machine itself applies no zero-direction
fallback. Fed a `Roll` event whose 2D direction is `(0,0)` (camera yaw 0),
`update_player_states` starts the roll and stores the zero vector in
`roll_direction` — not the camera-yaw-rotated forward vector
`rotY 1 0 (0,0,-1)`, which differs from the zero vector. -/
theorem update_player_states_zero_roll_direction :
    (update_player_states Player.default 1 0 (1/60)
        [MovementAction.Roll ⟨0, 0⟩]).is_rolling = true
    ∧ (update_player_states Player.default 1 0 (1/60)
        [MovementAction.Roll ⟨0, 0⟩]).roll_direction = ⟨0, 0, 0⟩
    ∧ rotY 1 0 ⟨0, 0, -1⟩ ≠ ⟨0, 0, 0⟩ := by
  refine ⟨?_, ?_, ?_⟩ <;>
    norm_num [update_player_states, read_events, roll_timer_phase,
      roll_start_phase, block_toggle_phase, block_stamina_phase,
      sprint_regen_phase, coyote_phase, rotY, Player.default]

/-- C6 (amended): the zero-direction fallback lives in the input mapper, not
the state machine. `keyboard_input` substitutes the forward direction `(0,1)`
when the movement direction is zero, so the `Roll` event that reaches the
state machine carries a nonzero direction, and the roll-start section then
sets `roll_direction` to the camera-yaw-rotated forward vector
`rotY camC camS (0,0,-1)`. -/
theorem keyboard_roll_fallback_forward (p : Player) (camC camS : ℚ)
    (hc : p.can_roll = true) (hr : p.is_rolling = false)
    (he : p.exhausted = false) (hs : p.roll_stamina_cost ≤ p.stamina) :
    keyboard_roll_direction ⟨0, 0⟩ = ⟨0, 1⟩
    ∧ (roll_start_phase p
        (read_events [MovementAction.Roll (keyboard_roll_direction ⟨0, 0⟩)])
        camC camS).roll_direction = rotY camC camS ⟨0, 0, -1⟩ := by
  constructor
  · rfl
  · have hfi : read_events [MovementAction.Roll (keyboard_roll_direction ⟨0, 0⟩)]
        = ⟨false, false, true, ⟨0, 1⟩, false, false⟩ := rfl
    rw [hfi]
    simp [roll_start_phase, hc, hr, he, hs]

/-- Witness for C6's amended theorem at the default player and camera yaw 0. -/
theorem keyboard_roll_fallback_forward_witness :
    keyboard_roll_direction ⟨0, 0⟩ = ⟨0, 1⟩
    ∧ (roll_start_phase Player.default
        (read_events [MovementAction.Roll (keyboard_roll_direction ⟨0, 0⟩)])
        1 0).roll_direction = rotY 1 0 ⟨0, 0, -1⟩ :=
  keyboard_roll_fallback_forward Player.default 1 0 rfl rfl rfl
    (by norm_num [Player.default])

/-- C9: when no nonzero-direction `Move` event arrived this tick,
`apply_movement_damping` multiplies exactly the x and z velocity components
by the damping factor and leaves y untouched. -/
theorem apply_movement_damping_scales_xz (events : List MovementAction)
    (d : ℚ) (v : V3)
    (h : ∀ dir s, MovementAction.Move dir s ∈ events → dir.length_squared = 0) :
    apply_movement_damping events d v = ⟨v.x * d, v.y, v.z * d⟩ := by
  have hmov : (events.any fun e =>
      match e with
      | .Move dir _ => decide (dir.length_squared > 0)
      | _ => false) = false := by
    rw [List.any_eq_false]
    intro e he
    match e with
    | .Move dir s => simp [h dir s he]
    | .Jump => simp
    | .Roll dir => simp
    | .StartBlock => simp
    | .EndBlock => simp
  simp [apply_movement_damping, hmov]

/-- Witness for C9 at the spec's numeric scenario: damping factor 0.9 applied
to prior velocity (10, 0, 5) on an event-free tick yields exactly
(9, 0, 4.5). -/
theorem apply_movement_damping_scales_xz_witness :
    apply_movement_damping [] (9/10) ⟨10, 0, 5⟩ = ⟨9, 0, 9/2⟩ := by
  have h := apply_movement_damping_scales_xz [] (9/10) ⟨10, 0, 5⟩ (by simp)
  rw [h]
  norm_num

/-- C10: a Jump processed while grounded with a tracked ground normal sets
the vertical velocity to `jump_impulse` and additionally adds
`normal × jump_impulse × 0.3` to the x and z components, so a grounded jump
on a slope is not purely vertical; the successful jump also zeroes
`coyote_timer` (and the grounded branch of the post-loop coyote update leaves
it there). -/
theorem movement_grounded_jump_slope_impulse {R : Type} (nrm : V3 → V3)
    (rotA : ℚ → ℚ → R) (slerpF : R → R → ℚ → R) (delta camC camS : ℚ)
    (p : Player) (rot : R) (ctrl : Ctrl) (n : V3)
    (hroll : p.is_rolling = false)
    (hblock : ¬(p.is_blocking = true ∧ p.can_move_while_blocking = false))
    (hg : ctrl.grounded = true) (hn : ctrl.ground_normal = some n) :
    movement nrm rotA slerpF delta [MovementAction.Jump] (some (camC, camS))
        (some (p, rot)) ctrl
      = SysResult.ok (some ({ p with coyote_timer := 0 }, rot),
          { ctrl with
              velocity :=
                ⟨ctrl.velocity.x + n.x * ctrl.jump_impulse * (3/10),
                  ctrl.jump_impulse,
                  ctrl.velocity.z + n.z * ctrl.jump_impulse * (3/10)⟩ }) := by
  simp [movement, move_event_step, hroll, hblock, hg, hn]

/-- Witness for C10: default player jumping while grounded on the slope
normal (3/5, 4/5, 0) with prior velocity (1, 0, 2) and jump impulse 7:
the resulting velocity is (1 + 63/50, 7, 2) = (113/50, 7, 2). -/
theorem movement_grounded_jump_slope_impulse_witness :
    movement (R := Unit) id (fun _ _ => ()) (fun _ _ _ => ()) (1/60)
        [MovementAction.Jump] (some (1, 0)) (some (Player.default, ()))
        { jump_impulse := 7, velocity := ⟨1, 0, 2⟩,
          ground_normal := some ⟨3/5, 4/5, 0⟩, grounded := true }
      = SysResult.ok (some ({ Player.default with coyote_timer := 0 }, ()),
          { jump_impulse := 7, velocity := ⟨113/50, 7, 2⟩,
            ground_normal := some ⟨3/5, 4/5, 0⟩, grounded := true }) := by
  have h := movement_grounded_jump_slope_impulse (R := Unit) id
    (fun _ _ => ()) (fun _ _ _ => ()) (1/60) 1 0 Player.default ()
    { jump_impulse := 7, velocity := ⟨1, 0, 2⟩,
      ground_normal := some ⟨3/5, 4/5, 0⟩, grounded := true }
    ⟨3/5, 4/5, 0⟩ rfl (by simp [Player.default]) rfl rfl
  rw [h]
  norm_num

/-- The camera pitch clamp band of `third_person_camera`
(`src/camera.rs`): `[0.5, 1.4]`. -/
def pitch_band (x : ℚ) : Prop := 1/2 ≤ x ∧ x ≤ 7/5

lemma clampQ_pitch_band (x : ℚ) : pitch_band (clampQ x (1/2) (7/5)) := by
  unfold pitch_band clampQ
  constructor
  · exact le_min (le_max_right _ _) (by norm_num)
  · exact min_le_right _ _

lemma mouse_look_step_pitch (c : ThirdPersonCamera) (d : V2) :
    pitch_band (mouse_look_step c d).pitch :=
  clampQ_pitch_band _

lemma mouse_wheel_step_pitch (c : ThirdPersonCamera) (y : ℚ) :
    (mouse_wheel_step c y).pitch = c.pitch := rfl

lemma gamepad_look_step_pitch (delta : ℚ) (c : ThirdPersonCamera) (s : V2) :
    pitch_band (gamepad_look_step delta c s).pitch
    ∨ (gamepad_look_step delta c s).pitch = c.pitch := by
  simp only [gamepad_look_step]
  split_ifs <;>
    first
      | exact Or.inl (clampQ_pitch_band _)
      | exact Or.inr rfl

lemma foldl_pitch_band {α : Type} (step : ThirdPersonCamera → α → ThirdPersonCamera)
    (hstep : ∀ c a, pitch_band (step c a).pitch ∨ (step c a).pitch = c.pitch) :
    ∀ (l : List α) (c : ThirdPersonCamera),
      pitch_band (l.foldl step c).pitch ∨ (l.foldl step c).pitch = c.pitch := by
  intro l
  induction l with
  | nil => intro c; exact Or.inr rfl
  | cons a t ih =>
      intro c
      rw [List.foldl_cons]
      rcases ih (step c a) with h | h
      · exact Or.inl h
      · rw [h]; exact hstep c a

lemma wheel_foldl_pitch :
    ∀ (l : List ℚ) (c : ThirdPersonCamera),
      (l.foldl mouse_wheel_step c).pitch = c.pitch := by
  intro l
  induction l with
  | nil => intro c; rfl
  | cons a t ih =>
      intro c
      rw [List.foldl_cons, ih, mouse_wheel_step_pitch]

/-- C8 (amended): at the end of every tick of the camera look update, the
pitch is either inside the clamp band `[0.5, 1.4]` or exactly unchanged from
the start of the tick (a tick with no applied look input does not clamp), so
the band holds from the first applied look input onward — but not before: the
default initial pitch 0.4 lies below the band. -/
theorem camera_pitch_band_or_unchanged (cam : ThirdPersonCamera)
    (focused : Bool) (mouse : List V2) (wheel : List ℚ) (delta : ℚ)
    (sticks : List V2) :
    pitch_band (third_person_camera_look cam focused mouse wheel delta sticks).pitch
    ∨ (third_person_camera_look cam focused mouse wheel delta sticks).pitch
        = cam.pitch := by
  unfold third_person_camera_look
  rcases focused with _ | _
  · simp only [Bool.false_eq_true, if_false]
    exact foldl_pitch_band _ (gamepad_look_step_pitch delta) sticks cam
  · simp only [if_true]
    rcases foldl_pitch_band _ (gamepad_look_step_pitch delta) sticks
        (wheel.foldl mouse_wheel_step (mouse.foldl mouse_look_step cam)) with h | h
    · exact Or.inl h
    · rw [h, wheel_foldl_pitch]
      rcases foldl_pitch_band _ (fun c a => Or.inl (mouse_look_step_pitch c a))
          mouse cam with h' | h'
      · exact Or.inl h'
      · exact Or.inr h'

/-- C8 counterexample: the default camera pitch is 0.4, below the clamp
band's lower bound 0.5; on a tick with no look input the pitch stays 0.4, so
"pitch is within the band at the end of every tick" fails before the first
look input arrives. -/
theorem camera_default_pitch_outside_band :
    (third_person_camera_look ThirdPersonCamera.default true [] [] (1/60) []).pitch
      = ThirdPersonCamera.default.pitch
    ∧ ThirdPersonCamera.default.pitch = 2/5
    ∧ ¬pitch_band (2/5) := by
  refine ⟨rfl, rfl, ?_⟩
  unfold pitch_band
  norm_num

/-- C5: within a tick of `update_player_states`, write `p1` for the player
state after the roll-timer/cooldown countdown (the point at which the code
evaluates the roll request). If `p1` is not rolling, the tick ends with
`is_rolling = true` exactly when a roll was requested this tick AND
`p1.can_roll` AND `p1` is not exhausted AND `p1.stamina ≥ p1.roll_stamina_cost`.
In particular a request with stamina 15 against cost 20 is rejected, and a
request while `can_roll` is still false (cooldown running) is ignored. -/
theorem update_player_states_roll_start_iff (p : Player) (camC camS delta : ℚ)
    (events : List MovementAction)
    (h : (roll_timer_phase { p with is_moving := (read_events events).is_moving }
        delta).is_rolling = false) :
    (update_player_states p camC camS delta events).is_rolling = true
      ↔ ((read_events events).roll_requested = true
          ∧ (roll_timer_phase { p with is_moving := (read_events events).is_moving }
              delta).can_roll = true
          ∧ (roll_timer_phase { p with is_moving := (read_events events).is_moving }
              delta).exhausted = false
          ∧ (roll_timer_phase { p with is_moving := (read_events events).is_moving }
              delta).roll_stamina_cost
            ≤ (roll_timer_phase { p with is_moving := (read_events events).is_moving }
              delta).stamina) := by
  simp only [update_player_states, coyote_phase_is_rolling,
    sprint_regen_phase_is_rolling, block_stamina_phase_is_rolling,
    block_toggle_phase_is_rolling]
  set fi := read_events events with hfi
  set p1 := roll_timer_phase { p with is_moving := fi.is_moving } delta with hp1
  unfold roll_start_phase
  split_ifs with hc
  · obtain ⟨h1, h2, h3, h4, h5⟩ := hc
    simp only [Bool.not_eq_true] at h4
    exact iff_of_true rfl ⟨h1, h2, h4, h5⟩
  · refine iff_of_false (by simp [h]) ?_
    rintro ⟨h1, h2, h3, h4⟩
    exact hc ⟨h1, h2, by simp [h], by simp [h3], h4⟩

/-- Witness for C5 at the spec's scenario: stamina 15, `roll_stamina_cost`
20 — the roll request leaves `is_rolling` false. -/
theorem update_player_states_roll_start_iff_witness :
    (update_player_states { Player.default with stamina := 15 } 1 0 (1/60)
        [MovementAction.Roll ⟨0, 1⟩]).is_rolling = false := by
  have h := update_player_states_roll_start_iff
    { Player.default with stamina := 15 } 1 0 (1/60)
    [MovementAction.Roll ⟨0, 1⟩]
    (by norm_num [roll_timer_phase, read_events, Player.default])
  cases hb : (update_player_states { Player.default with stamina := 15 } 1 0
      (1/60) [MovementAction.Roll ⟨0, 1⟩]).is_rolling
  · rfl
  · exact absurd (h.mp hb)
      (by norm_num [roll_timer_phase, read_events, Player.default])

/-- The stamina-pool invariant: `0 ≤ stamina ≤ max_stamina`. -/
def stamina_ok (p : Player) : Prop := 0 ≤ p.stamina ∧ p.stamina ≤ p.max_stamina

/-- Nonnegativity of the stamina cost/rate configuration (all are positive
constants in `Player::default`). -/
def stamina_config_ok (p : Player) : Prop :=
  0 ≤ p.roll_stamina_cost ∧ 0 ≤ p.block_stamina_cost_per_sec
    ∧ 0 ≤ p.stamina_use_rate ∧ 0 ≤ p.stamina_regen_rate

@[simp] lemma sprint_regen_phase_config (p : Player) (fi : FrameIntents) (d : ℚ) :
    (sprint_regen_phase p fi d).roll_stamina_cost = p.roll_stamina_cost
      ∧ (sprint_regen_phase p fi d).block_stamina_cost_per_sec = p.block_stamina_cost_per_sec
      ∧ (sprint_regen_phase p fi d).stamina_use_rate = p.stamina_use_rate
      ∧ (sprint_regen_phase p fi d).stamina_regen_rate = p.stamina_regen_rate := by
  simp only [sprint_regen_phase]; split_ifs <;> exact ⟨rfl, rfl, rfl, rfl⟩

@[simp] lemma coyote_phase_config (p : Player) (d : ℚ) :
    (coyote_phase p d).roll_stamina_cost = p.roll_stamina_cost
      ∧ (coyote_phase p d).block_stamina_cost_per_sec = p.block_stamina_cost_per_sec
      ∧ (coyote_phase p d).stamina_use_rate = p.stamina_use_rate
      ∧ (coyote_phase p d).stamina_regen_rate = p.stamina_regen_rate := by
  simp only [coyote_phase]; split_ifs <;> exact ⟨rfl, rfl, rfl, rfl⟩

lemma roll_timer_phase_ok (p : Player) (d : ℚ) (h : stamina_ok p) :
    stamina_ok (roll_timer_phase p d) := by
  simp only [stamina_ok, roll_timer_phase_stamina, roll_timer_phase_max_stamina]
  exact h

lemma roll_timer_phase_cfg (p : Player) (d : ℚ) (h : stamina_config_ok p) :
    stamina_config_ok (roll_timer_phase p d) := by
  simp only [stamina_config_ok, roll_timer_phase_config]
  exact h

lemma roll_start_phase_ok (p : Player) (fi : FrameIntents) (c s : ℚ)
    (hcfg : stamina_config_ok p) (h : stamina_ok p) :
    stamina_ok (roll_start_phase p fi c s) := by
  obtain ⟨hcost, -, -, -⟩ := hcfg
  obtain ⟨h0, h1⟩ := h
  have hb : 0 ≤ (roll_start_phase p fi c s).stamina
      ∧ (roll_start_phase p fi c s).stamina ≤ p.max_stamina := by
    simp only [roll_start_phase]
    split_ifs <;> (try dsimp only) <;> constructor <;> linarith
  simpa [stamina_ok, roll_start_phase_max_stamina] using hb

lemma roll_start_phase_cfg (p : Player) (fi : FrameIntents) (c s : ℚ)
    (h : stamina_config_ok p) : stamina_config_ok (roll_start_phase p fi c s) := by
  simp only [stamina_config_ok, roll_start_phase_config]
  exact h

lemma block_toggle_phase_ok (p : Player) (fi : FrameIntents) (h : stamina_ok p) :
    stamina_ok (block_toggle_phase p fi) := by
  simp only [stamina_ok, block_toggle_phase_stamina, block_toggle_phase_max_stamina]
  exact h

lemma block_toggle_phase_cfg (p : Player) (fi : FrameIntents)
    (h : stamina_config_ok p) : stamina_config_ok (block_toggle_phase p fi) := by
  simp only [stamina_config_ok, block_toggle_phase_config]
  exact h

lemma block_stamina_phase_ok (p : Player) (d : ℚ) (hd : 0 ≤ d)
    (hcfg : stamina_config_ok p) (h : stamina_ok p) :
    stamina_ok (block_stamina_phase p d) := by
  obtain ⟨-, hcost, -, -⟩ := hcfg
  obtain ⟨h0, h1⟩ := h
  have hcd : 0 ≤ p.block_stamina_cost_per_sec * d := mul_nonneg hcost hd
  have hb : 0 ≤ (block_stamina_phase p d).stamina
      ∧ (block_stamina_phase p d).stamina ≤ p.max_stamina := by
    simp only [block_stamina_phase]
    split_ifs <;> (try dsimp only) <;> constructor <;> linarith
  simpa [stamina_ok, block_stamina_phase_max_stamina] using hb

lemma block_stamina_phase_cfg (p : Player) (d : ℚ)
    (h : stamina_config_ok p) : stamina_config_ok (block_stamina_phase p d) := by
  simp only [stamina_config_ok, block_stamina_phase_config]
  exact h

lemma sprint_regen_phase_ok (p : Player) (fi : FrameIntents) (d : ℚ) (hd : 0 ≤ d)
    (hcfg : stamina_config_ok p) (h : stamina_ok p) :
    stamina_ok (sprint_regen_phase p fi d) := by
  obtain ⟨-, -, huse, hregen⟩ := hcfg
  obtain ⟨h0, h1⟩ := h
  have hud : 0 ≤ p.stamina_use_rate * d := mul_nonneg huse hd
  have hrd : 0 ≤ p.stamina_regen_rate * d := mul_nonneg hregen hd
  have hb : 0 ≤ (sprint_regen_phase p fi d).stamina
      ∧ (sprint_regen_phase p fi d).stamina ≤ p.max_stamina := by
    simp only [sprint_regen_phase]
    split_ifs <;> (try dsimp only) <;> constructor <;>
      first
        | linarith
        | exact le_min (by linarith) (by linarith)
        | exact min_le_right _ _
  simpa [stamina_ok, sprint_regen_phase_max_stamina] using hb

lemma sprint_regen_phase_cfg (p : Player) (fi : FrameIntents) (d : ℚ)
    (h : stamina_config_ok p) : stamina_config_ok (sprint_regen_phase p fi d) := by
  simp only [stamina_config_ok, sprint_regen_phase_config]
  exact h

lemma coyote_phase_ok (p : Player) (d : ℚ) (h : stamina_ok p) :
    stamina_ok (coyote_phase p d) := by
  simp only [stamina_ok, coyote_phase_stamina, coyote_phase_max_stamina]
  exact h

/-- C1: one tick of `update_player_states` keeps `stamina` inside
`[0, max_stamina]`: every deduction (roll cost, block upkeep, sprint use) is
floored at 0 and the regeneration is capped at `max_stamina`. The stamina
costs/rates are assumed nonnegative (as they are in `Player::default`) and
the frame time is nonnegative. -/
theorem update_player_states_stamina_in_range (p : Player) (camC camS delta : ℚ)
    (events : List MovementAction) (hd : 0 ≤ delta)
    (hcfg : stamina_config_ok p) (h : stamina_ok p) :
    stamina_ok (update_player_states p camC camS delta events) := by
  simp only [update_player_states]
  set fi := read_events events with hfi
  have h0 : stamina_ok { p with is_moving := fi.is_moving } := h
  have c0 : stamina_config_ok { p with is_moving := fi.is_moving } := hcfg
  have h1 := roll_timer_phase_ok _ delta h0
  have c1 := roll_timer_phase_cfg _ delta c0
  have h2 := roll_start_phase_ok _ fi camC camS c1 h1
  have c2 := roll_start_phase_cfg _ fi camC camS c1
  have h3 := block_toggle_phase_ok _ fi h2
  have c3 := block_toggle_phase_cfg _ fi c2
  have h4 := block_stamina_phase_ok _ delta hd c3 h3
  have c4 := block_stamina_phase_cfg _ delta c3
  have h5 := sprint_regen_phase_ok _ fi delta hd c4 h4
  exact coyote_phase_ok _ delta h5

/-- Witness for C1 at the default player, a sprinting move tick and
`delta = 1/60`. -/
theorem update_player_states_stamina_in_range_witness :
    stamina_ok (update_player_states Player.default 1 0 (1/60)
      [MovementAction.Move ⟨0, 1⟩ true]) :=
  update_player_states_stamina_in_range Player.default 1 0 (1/60)
    [MovementAction.Move ⟨0, 1⟩ true] (by norm_num)
    (by norm_num [stamina_config_ok, Player.default])
    (by norm_num [stamina_ok, Player.default])

end PigSouls
